import Mathlib

/-!
Verification development for the interactive globe component of the
voyager_premium travel-log application (src/components/WorldMap.tsx).

The numeric code of the component runs on JavaScript doubles; we embed it over
the real numbers (for the spherical trigonometry done via the d3-geo
library and for gesture geometry) and over the rationals / naturals where
the code only counts, compares and clamps. The d3-geo library calls
(geoDistance, geoInterpolate) are embedded by the exact formulas of that
library: the haversine great-circle distance and spherical linear
interpolation, including the midpoint evaluation at t = 0.5.
-/

namespace WorldMap

/-! ## Spherical geometry (d3-geo formulas used by WorldMap.tsx)

Points are (longitude, latitude) pairs in decimal degrees, as passed by
WorldMap.tsx (p1 = [lng, lat]).  Angles are converted to radians first,
exactly as d3-geo does.
-/

/-- Degrees to radians, as d3-geo multiplies by radians = pi / 180. -/
noncomputable def rad (x : ℝ) : ℝ := x * Real.pi / 180

/-- Radians to degrees, as d3-geo multiplies by degrees = 180 / pi. -/
noncomputable def deg (x : ℝ) : ℝ := x * 180 / Real.pi

/-- Haversine of an angle: sin(x/2)^2 (d3-geo haversin). -/
noncomputable def haversin (x : ℝ) : ℝ := Real.sin (x / 2) ^ 2

/-- Great-circle angular distance between two points given in radians
(lng, lat), by the haversine formula used in d3.geoInterpolate and
equivalent to d3.geoDistance:
2 * asin(sqrt(haversin(y1 - y0) + cos y0 * cos y1 * haversin(x1 - x0))). -/
noncomputable def geoDistanceRad (p1 p2 : ℝ × ℝ) : ℝ :=
  2 * Real.arcsin (Real.sqrt
    (haversin (p2.2 - p1.2) + Real.cos p1.2 * Real.cos p2.2 * haversin (p2.1 - p1.1)))

/-- Great-circle angular distance (radians) between two points given in
degrees, as d3.geoDistance is called by WorldMap.tsx lines 119 and 371. -/
noncomputable def geoDistance (p1 p2 : ℝ × ℝ) : ℝ :=
  geoDistanceRad (rad p1.1, rad p1.2) (rad p2.1, rad p2.2)

/-- Two-argument arctangent, the semantics of JavaScript Math.atan2
(with atan2 0 0 = 0), used by d3.geoInterpolate to read coordinates back
from a unit vector. -/
noncomputable def atan2 (y x : ℝ) : ℝ :=
  if 0 < x then Real.arctan (y / x)
  else if x < 0 then
    (if 0 ≤ y then Real.arctan (y / x) + Real.pi else Real.arctan (y / x) - Real.pi)
  else if 0 < y then Real.pi / 2
  else if y < 0 then -(Real.pi / 2)
  else 0

/-- The d3.geoInterpolate spherical interpolation evaluated at t = 0.5,
which WorldMap.tsx line 117 uses as the great-circle midpoint.  Inputs and
output are (lng, lat) in degrees.  When the two points coincide (d = 0)
d3 returns the first point, mirrored here by the if branch. -/
noncomputable def geoInterpolateMid (a b : ℝ × ℝ) : ℝ × ℝ :=
  let x0 := rad a.1
  let y0 := rad a.2
  let x1 := rad b.1
  let y1 := rad b.2
  let d := geoDistanceRad (x0, y0) (x1, y1)
  if d = 0 then (deg x0, deg y0)
  else
    let k := Real.sin d
    let t := (1 / 2 : ℝ) * d
    let bB := Real.sin t / k
    let aA := Real.sin (d - t) / k
    let x := aA * (Real.cos y0 * Real.cos x0) + bB * (Real.cos y1 * Real.cos x1)
    let y := aA * (Real.cos y0 * Real.sin x0) + bB * (Real.cos y1 * Real.sin x1)
    let z := aA * Real.sin y0 + bB * Real.sin y1
    (deg (atan2 y x), deg (atan2 z (Real.sqrt (x * x + y * y))))

/-! ## Auto-framing for a highlighted trip (WorldMap.tsx lines 111-129)

The code unpacks highlightTrip.origin.coords and
highlightTrip.destination.coords into [lng, lat] arrays before calling the
geometry library, so the embedding takes the two coordinate pairs
directly. -/

/-- The divisor targetSpan of WorldMap.tsx line 124:
max(distanceRad * paddingFactor, minSpanRad) with minSpanRad = 0.001 and
paddingFactor 1.5 when interaction is enabled, 1.8 otherwise
(lines 120-124). -/
noncomputable def autoFrameSpan (origin destination : ℝ × ℝ) (interactionEnabled : Bool) : ℝ :=
  max (geoDistance origin destination * (if interactionEnabled then 1.5 else 1.8)) 0.001

/-- The highlighted-trip branch of autoCenter (WorldMap.tsx lines 111-129):
rotation target is minus the great-circle midpoint, zoom is
pi / targetSpan clamped to [1, 4000] (lines 125-128).  Returns
(targetRotation, targetZoom). -/
noncomputable def autoCenterHighlight (origin destination : ℝ × ℝ)
    (interactionEnabled : Bool) : (ℝ × ℝ) × ℝ :=
  let center := geoInterpolateMid origin destination
  let autoZoom :=
    min (max (Real.pi / autoFrameSpan origin destination interactionEnabled) 1) 4000
  ((-center.1, -center.2), autoZoom)

/-- Modelled from the words of the specification (section 4.2, policy 1):
rotation target is the great-circle midpoint of origin and destination;
target zoom is pi / max(distance * paddingFactor, minSpan) clamped to
[1, 4000], paddingFactor 1.5 when interactive else 1.8, minSpan 0.001.
Used to compare the code embedding against the specification text. -/
noncomputable def specAutoFrameCamera (origin destination : ℝ × ℝ)
    (interactive : Bool) : (ℝ × ℝ) × ℝ :=
  let midpoint := geoInterpolateMid origin destination
  let distance := geoDistance origin destination
  let padding : ℝ := if interactive then 1.5 else 1.8
  let zoomTarget := min (max (Real.pi / max (distance * padding) 0.001) 1) 4000
  ((-midpoint.1, -midpoint.2), zoomTarget)

/-! ## Trip data model (src/types.ts)

Only the fields read by the WorldMap computations below are embedded:
location name, coordinates, and the optional administrative fields used
by the word cloud.  Coordinates are embedded as rationals here because
the tally and word-cloud code only stores and copies them.  Optional
string fields model the TypeScript optional fields, where none stands
for undefined. -/

structure LocationData where
  name : String
  lng : ℚ
  lat : ℚ
  country : Option String := none
  state : Option String := none
  city : Option String := none
deriving DecidableEq, Repr

structure Trip where
  origin : LocationData
  destination : LocationData
deriving DecidableEq, Repr

/-! ## Auto-framing with no highlight: most-frequent location
(WorldMap.tsx lines 131-160)

The code builds a Record keyed by location name (locCounts); a plain JS
object over these keys preserves insertion order, so it is embedded as an
association list in first-encountered order. -/

/-- One entry of locCounts: a location name with its visit count and the
coordinates recorded when the name was first seen (lines 138 and 143 keep
the first coords; later hits only increment count). -/
structure LocEntry where
  name : String
  count : ℕ
  lng : ℚ
  lat : ℚ
deriving DecidableEq, Repr

/-- Insert or increment one location name, as lines 137-144 do:
if the key exists increment its count, otherwise append a fresh entry
with count 1 (the code creates it with count 0 and immediately
increments). -/
def locBump (acc : List LocEntry) (name : String) (lng lat : ℚ) : List LocEntry :=
  match acc with
  | [] => [⟨name, 1, lng, lat⟩]
  | e :: es =>
    if e.name = name then ⟨e.name, e.count + 1, e.lng, e.lat⟩ :: es
    else e :: locBump es name lng lat

/-- One trip of lines 135-145: bump the origin name then the destination
name. -/
def locTallyStep (acc : List LocEntry) (t : Trip) : List LocEntry :=
  locBump (locBump acc t.origin.name t.origin.lng t.origin.lat)
    t.destination.name t.destination.lng t.destination.lat

/-- The locCounts record of lines 133-145. -/
def locTally (trips : List Trip) : List LocEntry :=
  trips.foldl locTallyStep []

/-- The running best of lines 147-150; the code starts it at
count = -1, so that field is an integer. -/
structure TopLoc where
  count : ℤ
  lng : ℚ
  lat : ℚ
deriving DecidableEq, Repr

/-- One comparison of lines 148-150: keep the entry whose count strictly
exceeds the best so far (so ties keep the earlier entry). -/
def selStep (best : TopLoc) (e : LocEntry) : TopLoc :=
  if (e.count : ℤ) > best.count then ⟨(e.count : ℤ), e.lng, e.lat⟩ else best

/-- The fold of lines 147-150 over Object.values(locCounts), starting
from count -1. -/
def selectTopLoc (entries : List LocEntry) : TopLoc :=
  entries.foldl selStep ⟨-1, 0, 0⟩

/-- The no-highlight, nonzero-trips branch of autoCenter
(lines 131-160) plus its fallback: rotation is minus the selected
coordinates at zoom 1, or the fixed [-105, -35] at zoom 1 when no entry
was counted.  Returns (targetRotation, targetZoom). -/
def autoCenterTrips (trips : List Trip) : (ℚ × ℚ) × ℚ :=
  let top := selectTopLoc (locTally trips)
  if top.count > 0 then ((-top.lng, -top.lat), 1) else (((-105 : ℚ), (-35 : ℚ)), 1)

/-! ## Word cloud (WorldMap.tsx lines 382-438) -/

/-- JavaScript string truthiness: undefined and the empty string are
falsy. -/
def truthy : Option String → Bool
  | none => false
  | some s => !(s = "")

/-- JavaScript a || b on optional strings, as used in lines 389, 395
and 401. -/
def jsOrStr (a b : Option String) : Option String := if truthy a then a else b

/-- One entry of the word-cloud counts record: key (the code uses
c- / p- / ct- marked keys), display text, type tag and count. -/
structure WCItem where
  key : String
  text : String
  tyTag : String
  count : ℕ
deriving DecidableEq, Repr

/-- Insert or increment one word-cloud key, as lines 390-406 do on the
insertion-ordered counts record. -/
def wcBump (acc : List WCItem) (key text tyTag : String) : List WCItem :=
  match acc with
  | [] => [⟨key, text, tyTag, 1⟩]
  | it :: its =>
    if it.key = key then ⟨it.key, it.text, it.tyTag, it.count + 1⟩ :: its
    else it :: wcBump its key text tyTag

/-- The per-trip counting step of lines 388-407: bump the country
(destination country falling back to origin country), the province
(destination state falling back to origin state), and the city
(destination city falling back to destination name), each only when the
chosen value is truthy. -/
def wcStep (acc : List WCItem) (t : Trip) : List WCItem :=
  let c := jsOrStr t.destination.country t.origin.country
  let acc1 := if truthy c then wcBump acc ("c-" ++ c.getD "") (c.getD "") "country" else acc
  let p := jsOrStr t.destination.state t.origin.state
  let acc2 := if truthy p then wcBump acc1 ("p-" ++ p.getD "") (p.getD "") "province" else acc1
  let city := jsOrStr t.destination.city (some t.destination.name)
  if truthy city then wcBump acc2 ("ct-" ++ city.getD "") (city.getD "") "city" else acc2

/-- The counts record of lines 386-407. -/
def wcCounts (trips : List Trip) : List WCItem :=
  trips.foldl wcStep []

/-- Stable descending insertion by count.  JavaScript Array.sort with
comparator (a, b) => b.count - a.count is a stable sort ordering by
count descending; a stable insertion sort produces the identical
permutation for this comparator. -/
def wcInsertDesc (it : WCItem) : List WCItem → List WCItem
  | [] => [it]
  | x :: xs => if it.count > x.count then it :: x :: xs else x :: wcInsertDesc it xs

/-- The sort of line 410. -/
def sortByCountDesc (items : List WCItem) : List WCItem :=
  items.foldr wcInsertDesc []

/-- Lines 409-411: sort the counted items by count descending and keep
at most the top 50. -/
def wcItems (trips : List Trip) : List WCItem :=
  if (sortByCountDesc (wcCounts trips)).length > 50 then
    (sortByCountDesc (wcCounts trips)).take 50
  else sortByCountDesc (wcCounts trips)

/-- Line 413: minCount is the count of the last kept item, with the
JavaScript || 1 applied to a missing item or a zero count. -/
def wcMinCount (items : List WCItem) : ℕ :=
  match items.getLast? with
  | some it => if it.count = 0 then 1 else it.count
  | none => 1

/-- Line 414: range is first count (|| 1) minus minCount, with || 1
applied when the difference is zero. -/
def wcRange (items : List WCItem) : ℤ :=
  let f : ℕ := match items.head? with
    | some it => if it.count = 0 then 1 else it.count
    | none => 1
  let r : ℤ := (f : ℤ) - (wcMinCount items : ℤ)
  if r = 0 then 1 else r

/-- Lines 416-419: the deterministic seeded generator
x = sin(seed) * 10000; return x - floor(x). -/
noncomputable def seededRandom (seed : ℝ) : ℝ :=
  let x := Real.sin seed * 10000
  x - (⌊x⌋ : ℤ)

/-- One rendered word-cloud label (lines 431-436). -/
structure WCLabel where
  key : String
  text : String
  leftPct : ℝ
  topPct : ℝ
  fontSize : ℚ
  colorClass : String

/-- Lines 421-437: map the i-th kept item to its label, with
weight = (count - minCount) / range, fontSize = 0.8 + weight * 3,
left = 15 + seededRandom(i * 123) * 70, top = 20 + seededRandom(i * 789) * 60,
and the color class chosen by the type tag. -/
noncomputable def mkWCLabel (minC : ℕ) (rng : ℤ) (i : ℕ) (item : WCItem) : WCLabel :=
  let weight : ℚ := ((item.count : ℚ) - (minC : ℚ)) / (rng : ℚ)
  { key := "wc-" ++ item.tyTag ++ "-" ++ item.text
    text := item.text
    leftPct := 15 + seededRandom ((i : ℝ) * 123) * 70
    topPct := 20 + seededRandom ((i : ℝ) * 789) * 60
    fontSize := 0.8 + weight * 3
    colorClass :=
      if item.tyTag = "country" then "text-sky-900/20 dark:text-sky-100/10"
      else if item.tyTag = "province" then "text-violet-900/20 dark:text-violet-100/10"
      else if item.tyTag = "city" then "text-teal-900/20 dark:text-teal-100/10"
      else "" }

/-- The wordCloudElements memo of lines 382-438: empty when the word
cloud is disabled and the view is non-interactive (line 383), empty when
a trip is highlighted (line 384), otherwise one label per kept item. -/
noncomputable def wordCloudElements (enableWordCloud interactionEnabled : Bool)
    (highlightTrip : Option Trip) (trips : List Trip) : List WCLabel :=
  if !enableWordCloud && !interactionEnabled then []
  else if highlightTrip.isSome then []
  else
    (wcItems trips).enum.map
      (fun p => mkWCLabel (wcMinCount (wcItems trips)) (wcRange (wcItems trips)) p.1 p.2)

/-- Line 464: the word-cloud background layer is rendered exactly when
wordCloudElements is nonempty. -/
noncomputable def rendersWordCloud (enableWordCloud interactionEnabled : Bool)
    (highlightTrip : Option Trip) (trips : List Trip) : Bool :=
  decide (0 < (wordCloudElements enableWordCloud interactionEnabled highlightTrip trips).length)

/-! ## Zoning decisions (WorldMap.tsx lines 199-250)

Both handlers read the event y coordinate and window.innerHeight; the
capture decision is whether stopPropagation is reached. -/

/-- The navigation band of lines 210-212 and 232: top 25% or bottom 25%
of the viewport. -/
def isNavZone (y h : ℝ) : Prop := y < h * 0.25 ∨ y > h * 0.75

noncomputable instance (y h : ℝ) : Decidable (isNavZone y h) := by
  unfold isNavZone; infer_instance

/-- The capture decision of handleTouchGatekeeper (lines 199-220):
nothing is captured when interaction is disabled (line 200); otherwise
stopPropagation runs iff zoomed in beyond 1.1 or outside the navigation
band (line 216). -/
def touchCaptures (interactionEnabled : Bool) (zoom y h : ℝ) : Prop :=
  interactionEnabled = true ∧ (zoom > 1.1 ∨ ¬ isNavZone y h)

/-- The capture decision of handlePointerDown (lines 225-250): nothing
is captured when interaction is disabled (line 226); otherwise the
handler returns without capturing exactly when not zoomed in, in the
navigation band, and no trip is highlighted (line 235), and captures in
every other case (line 239). -/
def pointerCaptures (interactionEnabled highlightTrip : Bool) (zoom y h : ℝ) : Prop :=
  interactionEnabled = true ∧
    ¬ (¬ zoom > 1.1 ∧ isNavZone y h ∧ highlightTrip = false)

/-! ## Zoom gesture operations (WorldMap.tsx lines 263-323) -/

/-- Pinch grow step of line 271: zoom * 1.05 clamped above by 4000. -/
noncomputable def pinchZoomGrow (z : ℝ) : ℝ := min (z * 1.05) 4000

/-- Pinch shrink step of line 273: zoom * 0.95 clamped below by 1. -/
noncomputable def pinchZoomShrink (z : ℝ) : ℝ := max (z * 0.95) 1

/-- Wheel step of lines 309-314: scroll up multiplies by 1.1 clamped
above by 4000, scroll down divides by 1.1 clamped below by 1. -/
noncomputable def wheelZoomStep (deltaY z : ℝ) : ℝ :=
  if deltaY < 0 then min (z * 1.1) 4000 else max (z / 1.1) 1

/-- Double-click step, the zoomIn of line 323: zoom * 1.5 clamped above
by 4000. -/
noncomputable def doubleClickZoom (z : ℝ) : ℝ := min (z * 1.5) 4000

/-- One discrete zoom gesture operation. -/
inductive ZoomOp where
  | pinchGrow
  | pinchShrink
  | wheel (deltaY : ℝ)
  | doubleClick

noncomputable def applyZoomOp (z : ℝ) : ZoomOp → ℝ
  | .pinchGrow => pinchZoomGrow z
  | .pinchShrink => pinchZoomShrink z
  | .wheel dy => wheelZoomStep dy z
  | .doubleClick => doubleClickZoom z

noncomputable def applyZoomOps (z : ℝ) (ops : List ZoomOp) : ℝ :=
  ops.foldl applyZoomOp z

/-! ## Destination markers (WorldMap.tsx lines 356-379)

In the no-highlight branch (lines 365-377) the code walks the trips and
pushes a marker for each destination whose great-circle distance to the
current view center (projection.invert of the viewport midpoint) is
strictly below pi/2.  The view center and the destination coordinate
pairs are taken as inputs; the screen projection applied to an emitted
destination does not affect whether it is emitted, so the emitted list
carries the destination coordinates. -/

noncomputable def renderPointsDests (dests : List (ℝ × ℝ)) (center : ℝ × ℝ) : List (ℝ × ℝ) :=
  dests.filter (fun p => decide (geoDistance p center < Real.pi / 2))

/-! ## Gesture session state machine (WorldMap.tsx lines 42-56, 225-323) -/

/-- One cached pointer event: pointer id and client coordinates. -/
structure PointerEvt where
  pid : ℕ
  x : ℝ
  y : ℝ

/-- The per-instance interaction state: rotation and zoom (useState,
lines 42-43), the drag flag (line 44), lastPos, the active-pointer cache
evCache and the pinch baseline prevDiff (lines 54-56). -/
structure GestureState where
  rotation : ℝ × ℝ
  zoom : ℝ
  isDragging : Bool
  lastPos : Option (ℝ × ℝ)
  evCache : List PointerEvt
  prevDiff : ℝ

/-- The initial state: rotation [0,0], zoom 1, no drag, no lastPos,
empty cache, prevDiff -1. -/
noncomputable def initGesture : GestureState :=
  { rotation := (0, 0), zoom := 1, isDragging := false, lastPos := none,
    evCache := [], prevDiff := -1 }

/-- Replace the first cache entry with the same pointer id (the
findIndex plus assignment of lines 257-260); no change when absent. -/
def replacePid : List PointerEvt → PointerEvt → List PointerEvt
  | [], _ => []
  | c :: cs, e => if c.pid = e.pid then e :: cs else c :: replacePid cs e

/-- Remove the first cache entry with the given pointer id (the
findIndex plus splice of lines 293-294); no change when absent. -/
def removeFirstPid : List PointerEvt → ℕ → List PointerEvt
  | [], _ => []
  | c :: cs, pid => if c.pid = pid then cs else c :: removeFirstPid cs pid

/-- handlePointerDown (lines 225-250): do nothing when interaction is
disabled; return without touching state when the zoning rule lets the
event bubble (line 235); otherwise push the event and, when it is the
only active pointer, start a drag session recording its position. -/
noncomputable def handlePointerDown (interactionEnabled highlightActive : Bool)
    (innerHeight : ℝ) (s : GestureState) (e : PointerEvt) : GestureState :=
  if !interactionEnabled then s
  else if ¬ s.zoom > 1.1 ∧ isNavZone e.y innerHeight ∧ highlightActive = false then s
  else if (s.evCache ++ [e]).length = 1 then
    { s with evCache := s.evCache ++ [e], isDragging := true, lastPos := some (e.x, e.y) }
  else { s with evCache := s.evCache ++ [e] }

/-- The Math.hypot pointer distance of lines 264-267. -/
noncomputable def ptrDist (c0 c1 : PointerEvt) : ℝ :=
  Real.sqrt ((c0.x - c1.x) ^ 2 + (c0.y - c1.y) ^ 2)

/-- The pinch zoom decision of lines 269-275: only when a baseline is
recorded (prevDiff > 0), grow the zoom if the distance grew, shrink it
if it shrank, leave it if equal. -/
noncomputable def pinchUpdate (prevDiff zoom curDiff : ℝ) : ℝ :=
  if prevDiff > 0 then
    (if curDiff > prevDiff then pinchZoomGrow zoom
     else if curDiff < prevDiff then pinchZoomShrink zoom
     else zoom)
  else zoom

/-- handlePointerMove (lines 252-289): update the cached event; with
exactly two active pointers run the pinch step (compare the pointer
distance with prevDiff, multiply zoom by 1.05 or 0.95 clamped, record the
new distance); with a drag session and one active pointer rotate by the
pixel delta scaled by 0.25 / sqrt(zoom) and record the new position. -/
noncomputable def handlePointerMove (interactionEnabled : Bool)
    (s : GestureState) (e : PointerEvt) : GestureState :=
  if !interactionEnabled then s
  else
    match replacePid s.evCache e with
    | [c0, c1] =>
      { s with evCache := replacePid s.evCache e,
               prevDiff := ptrDist c0 c1,
               zoom := pinchUpdate s.prevDiff s.zoom (ptrDist c0 c1) }
    | _ =>
      match s.lastPos with
      | some lp =>
        if s.isDragging = true ∧ (replacePid s.evCache e).length = 1 then
          { s with evCache := replacePid s.evCache e,
                   rotation := (s.rotation.1 + (e.x - lp.1) * (0.25 / Real.sqrt s.zoom),
                                s.rotation.2 - (e.y - lp.2) * (0.25 / Real.sqrt s.zoom)),
                   lastPos := some (e.x, e.y) }
        else { s with evCache := replacePid s.evCache e }
      | none => { s with evCache := replacePid s.evCache e }

/-- handlePointerUp (lines 291-304): remove the matching cached pointer
if any; reset the pinch baseline when fewer than two pointers remain;
end the drag session when none remain. -/
noncomputable def handlePointerUp (interactionEnabled : Bool)
    (s : GestureState) (e : PointerEvt) : GestureState :=
  if !interactionEnabled then s
  else if (removeFirstPid s.evCache e.pid).length = 0 then
    { s with evCache := removeFirstPid s.evCache e.pid,
             prevDiff := if (removeFirstPid s.evCache e.pid).length < 2 then -1 else s.prevDiff,
             isDragging := false, lastPos := none }
  else
    { s with evCache := removeFirstPid s.evCache e.pid,
             prevDiff := if (removeFirstPid s.evCache e.pid).length < 2 then -1 else s.prevDiff }

/-- handleWheel (lines 306-315): update zoom by the wheel step. -/
noncomputable def handleWheel (interactionEnabled : Bool) (deltaY : ℝ)
    (s : GestureState) : GestureState :=
  if !interactionEnabled then s else { s with zoom := wheelZoomStep deltaY s.zoom }

/-- handleDoubleClick (lines 317-323): update zoom by the zoomIn step. -/
noncomputable def handleDoubleClickStep (interactionEnabled : Bool)
    (s : GestureState) : GestureState :=
  if !interactionEnabled then s else { s with zoom := doubleClickZoom s.zoom }

/-- Camera writes done outside the gesture handlers (autoCenter,
lines 167-168): set rotation and zoom, leaving the gesture refs alone. -/
def setCamera (s : GestureState) (rot : ℝ × ℝ) (z : ℝ) : GestureState :=
  { s with rotation := rot, zoom := z }

/-- The states a gesture session can actually be in: everything
generated from the initial state by the handlers of WorldMap.tsx. -/
inductive Reachable : GestureState → Prop
  | init : Reachable initGesture
  | down {s} (en hl : Bool) (ih : ℝ) (e : PointerEvt) :
      Reachable s → Reachable (handlePointerDown en hl ih s e)
  | move {s} (en : Bool) (e : PointerEvt) :
      Reachable s → Reachable (handlePointerMove en s e)
  | up {s} (en : Bool) (e : PointerEvt) :
      Reachable s → Reachable (handlePointerUp en s e)
  | wheel {s} (en : Bool) (dy : ℝ) :
      Reachable s → Reachable (handleWheel en dy s)
  | dbl {s} (en : Bool) :
      Reachable s → Reachable (handleDoubleClickStep en s)
  | recenter {s} (rot : ℝ × ℝ) (z : ℝ) :
      Reachable s → Reachable (setCamera s rot z)

/-- The invariant that makes an unmatched pointer-up a no-op: with fewer
than two cached pointers the pinch baseline is already -1, and with an
empty cache no drag session is active. -/
def GestureInv (s : GestureState) : Prop :=
  (s.evCache.length < 2 → s.prevDiff = -1) ∧
  (s.evCache = [] → s.isDragging = false ∧ s.lastPos = none)

/-- The DOM-side release of lines 300-303: releasePointerCapture is only
attempted on a pointer the element holds (hasPointerCapture guard), so a
pointer never captured leaves the captured set untouched and raises
nothing; the operation is total. -/
def releasePointerCaptureGuarded (captured : List ℕ) (pid : ℕ) : List ℕ :=
  if pid ∈ captured then captured.erase pid else captured

/-! ## Geometry cache (WorldMap.tsx lines 23-89) -/

/-- The parsed land geometry; its content is irrelevant to the caching
discipline (topojson.feature is an external library call), so it is
embedded as a natural number standing for an abstract payload. -/
abbrev GeoData := ℕ

/-- The module-level cache of lines 26-27: cachedWorldData and the
in-flight promise marker dataFetchPromise (promises identified by
number). -/
structure GeoCacheState where
  cachedWorldData : Option GeoData
  dataFetchPromise : Option ℕ
deriving DecidableEq, Repr

/-- What a mounting component ends up doing: read the cache directly, or
await some promise. -/
inductive LoadOutcome where
  | fromCache (d : GeoData)
  | awaitPromise (pid : ℕ)
deriving DecidableEq, Repr

/-- The geometry load effect of lines 66-89 run by one mount: if the
cache is filled, use it and fetch nothing; else if a fetch promise is in
flight, await that same promise and fetch nothing; else start one fetch,
record its promise, and await it.  Returns the new cache state, the
outcome, and the number of network fetches issued (0 or 1). -/
def loadGeometryEffect (s : GeoCacheState) (freshPid : ℕ) :
    GeoCacheState × LoadOutcome × ℕ :=
  match s.cachedWorldData with
  | some d => (s, .fromCache d, 0)
  | none =>
    match s.dataFetchPromise with
    | some pid => (s, .awaitPromise pid, 0)
    | none => ({ s with dataFetchPromise := some freshPid }, .awaitPromise freshPid, 1)

/-- Fetch success (lines 75-79): the parsed data is cached; the promise
marker is left in place. -/
def resolveFetchSuccess (s : GeoCacheState) (d : GeoData) : GeoCacheState :=
  { s with cachedWorldData := some d }

/-- Fetch failure (lines 80-83): the promise marker is reset to null so
a later mount can retry. -/
def resolveFetchFailure (s : GeoCacheState) : GeoCacheState :=
  { s with dataFetchPromise := none }

/-! ## Concrete inputs used to evaluate the definitions -/

/-- The trip list A to B, A to C, A to D of the specification example:
A occurs three times, each other location once. -/
def locA : LocationData := ⟨"A", 100, 30, none, none, none⟩

def tallyDemoTrips : List Trip :=
  [⟨locA, ⟨"B", 20, 10, none, none, none⟩⟩,
   ⟨locA, ⟨"C", 30, 11, none, none, none⟩⟩,
   ⟨locA, ⟨"D", 40, 12, none, none, none⟩⟩]

/-- A trip with a destination country and a destination name, enough to
produce word-cloud labels. -/
def demoWCTrip : Trip :=
  ⟨⟨"Home", 0, 0, none, none, none⟩, ⟨"Tokyo", 139, 35, some "Japan", none, none⟩⟩

/-! # Theorems -/

/-- C5: for every pair of origin/destination coordinates, including
coincident (distance 0) and antipodal (distance pi) pairs, the
auto-framing divisor targetSpan is bounded below by the minSpan constant
0.001 and hence nonzero, so no division by zero occurs, and the clamped
zoom lies in [1, 4000], hence is finite. -/
theorem autoFrame_zoom_safe (o d : ℝ × ℝ) (i : Bool) :
    (0.001 : ℝ) ≤ autoFrameSpan o d i ∧ autoFrameSpan o d i ≠ 0 ∧
    1 ≤ (autoCenterHighlight o d i).2 ∧ (autoCenterHighlight o d i).2 ≤ 4000 := by
  refine ⟨le_max_right _ _, ?_, ?_, ?_⟩
  · have h : (0 : ℝ) < 0.001 := by norm_num
    exact ne_of_gt (lt_of_lt_of_le h (le_max_right _ _))
  · simp only [autoCenterHighlight]
    exact le_min (le_max_right _ _) (by norm_num)
  · simp only [autoCenterHighlight]
    exact min_le_right _ _

/-- One gesture zoom step keeps the zoom inside [1, 4000] when it starts
there. -/
theorem applyZoomOp_mem (z : ℝ) (h1 : 1 ≤ z) (h2 : z ≤ 4000) (op : ZoomOp) :
    1 ≤ applyZoomOp z op ∧ applyZoomOp z op ≤ 4000 := by
  cases op with
  | pinchGrow =>
    unfold applyZoomOp pinchZoomGrow
    exact ⟨le_min (by nlinarith) (by norm_num), min_le_right _ _⟩
  | pinchShrink =>
    unfold applyZoomOp pinchZoomShrink
    exact ⟨le_max_right _ _, max_le (by nlinarith) (by norm_num)⟩
  | wheel dy =>
    simp only [applyZoomOp]
    unfold wheelZoomStep
    split
    · exact ⟨le_min (by nlinarith) (by norm_num), min_le_right _ _⟩
    · refine ⟨le_max_right _ _, max_le ?_ (by norm_num)⟩
      calc z / 1.1 ≤ z := div_le_self (by linarith) (by norm_num)
        _ ≤ 4000 := h2
  | doubleClick =>
    unfold applyZoomOp doubleClickZoom
    exact ⟨le_min (by nlinarith) (by norm_num), min_le_right _ _⟩

/-- A whole sequence of gesture zoom steps keeps the zoom inside
[1, 4000]. -/
theorem applyZoomOps_mem (ops : List ZoomOp) : ∀ z : ℝ, 1 ≤ z → z ≤ 4000 →
    1 ≤ applyZoomOps z ops ∧ applyZoomOps z ops ≤ 4000 := by
  induction ops with
  | nil => intro z h1 h2; exact ⟨h1, h2⟩
  | cons op rest ih =>
    intro z h1 h2
    have hstep := applyZoomOp_mem z h1 h2 op
    have hrest := ih (applyZoomOp z op) hstep.1 hstep.2
    simpa [applyZoomOps] using hrest

/-- C3: starting from any zoom in [1, 4000] (in particular any
auto-framed zoom), every single pinch, wheel or double-click step lands
back in [1, 4000], and so does any finite sequence of such gesture
operations. -/
theorem zoom_clamp_invariant (z : ℝ) (h1 : 1 ≤ z) (h2 : z ≤ 4000) :
    (∀ op, 1 ≤ applyZoomOp z op ∧ applyZoomOp z op ≤ 4000) ∧
    (∀ ops, 1 ≤ applyZoomOps z ops ∧ applyZoomOps z ops ≤ 4000) :=
  ⟨fun op => applyZoomOp_mem z h1 h2 op, fun ops => applyZoomOps_mem ops z h1 h2⟩

/-- C3 witness: the invariant evaluated at zoom 1 and a concrete
double-click. -/
theorem zoom_clamp_invariant_check :
    (1 : ℝ) ≤ 1 ∧ (1 : ℝ) ≤ 4000 ∧
    (1 ≤ applyZoomOps 1 [ZoomOp.doubleClick] ∧ applyZoomOps 1 [ZoomOp.doubleClick] ≤ 4000) :=
  ⟨le_refl 1, by norm_num,
   (zoom_clamp_invariant 1 (le_refl 1) (by norm_num)).2 [ZoomOp.doubleClick]⟩

/-- C7: the word cloud never emits more than 50 labels, whatever the
trips, flags and highlight are, and emits no label at all whenever a
trip is highlighted. -/
theorem wordCloud_bounded :
    (∀ (e i : Bool) (h : Option Trip) (trips : List Trip),
        (wordCloudElements e i h trips).length ≤ 50) ∧
    (∀ (e i : Bool) (t : Trip) (trips : List Trip),
        wordCloudElements e i (some t) trips = []) := by
  constructor
  · intro e i h trips
    unfold wordCloudElements
    split
    · simp
    · split
      · simp
      · simp only [List.length_map, List.enum_length]
        unfold wcItems
        split
        · rw [List.length_take]
          exact min_le_left _ _
        · omega
  · intro e i t trips
    unfold wordCloudElements
    split
    · rfl
    · simp

/-- C10 counterexample: an interactive view with no highlighted trip and
an empty trip list computes zero word-cloud labels, so the word-cloud
background layer (rendered only when the label list is nonempty) is not
rendered, refuting that every interactive no-highlight view renders it. -/
theorem wordCloud_empty_trips_not_rendered :
    rendersWordCloud false true none [] = false := by
  rfl

/-- C10 amended: the enableWordCloud flag alone never suppresses the
word cloud on an interactive view: with interaction enabled and no
highlight the computed labels are identical whether the flag is false
(its default) or true, and the background is rendered whenever that
computation is nonempty, for example for one trip with a named
destination; only a view that is both flag-off and non-interactive (or a
highlighted trip, or an empty computation) yields no labels. -/
theorem wordCloud_flag_interactive :
    (∀ trips : List Trip,
        wordCloudElements false true none trips = wordCloudElements true true none trips) ∧
    rendersWordCloud false true none [demoWCTrip] = true := by
  constructor
  · intro trips; rfl
  · rfl

/-- C8: the geometry loader never issues a second fetch while one is in
flight: a filled cache is returned with no fetch; a recorded in-flight
promise is awaited by new callers with no fetch; two mounts from the
empty state issue exactly one fetch between them and both await the
first promise; and a failed fetch clears the in-flight marker so a
future call may retry. -/
theorem geometry_single_flight :
    (∀ (s : GeoCacheState) (id : ℕ) (d : GeoData), s.cachedWorldData = some d →
        loadGeometryEffect s id = (s, LoadOutcome.fromCache d, 0)) ∧
    (∀ (s : GeoCacheState) (id pid : ℕ), s.cachedWorldData = none →
        s.dataFetchPromise = some pid →
        loadGeometryEffect s id = (s, LoadOutcome.awaitPromise pid, 0)) ∧
    (∀ id1 id2 : ℕ,
        ((loadGeometryEffect ⟨none, none⟩ id1).2.2 +
            (loadGeometryEffect (loadGeometryEffect ⟨none, none⟩ id1).1 id2).2.2 = 1) ∧
        (loadGeometryEffect (loadGeometryEffect ⟨none, none⟩ id1).1 id2).2.1 =
          LoadOutcome.awaitPromise id1) ∧
    (∀ s : GeoCacheState, (resolveFetchFailure s).dataFetchPromise = none) := by
  refine ⟨?_, ?_, ?_, ?_⟩
  · intro s id d h
    unfold loadGeometryEffect
    rw [h]
  · intro s id pid h1 h2
    unfold loadGeometryEffect
    rw [h1, h2]
  · intro id1 id2
    exact ⟨rfl, rfl⟩
  · intro s
    rfl

/-- C8 witness: the loader evaluated on a filled cache and on a recorded
in-flight promise. -/
theorem geometry_single_flight_check :
    loadGeometryEffect ⟨some 3, none⟩ 0 = (⟨some 3, none⟩, LoadOutcome.fromCache 3, 0) ∧
    loadGeometryEffect ⟨none, some 7⟩ 0 = (⟨none, some 7⟩, LoadOutcome.awaitPromise 7, 0) :=
  ⟨geometry_single_flight.1 ⟨some 3, none⟩ 0 3 rfl,
   geometry_single_flight.2.1 ⟨none, some 7⟩ 0 7 rfl rfl⟩

/-- C1 counterexample: with a highlighted trip, at default zoom 1 and an
event at y = 100 in a 1000-pixel viewport (the top band), the
pointer-down handler captures the event while the touch gatekeeper lets
it propagate, so the two zoning decisions are not identical. -/
theorem zoning_touch_pointer_diverge :
    pointerCaptures true true 1 100 1000 ∧ ¬ touchCaptures true 1 100 1000 := by
  constructor
  · refine ⟨rfl, ?_⟩
    rintro ⟨-, -, hb⟩
    simp at hb
  · rintro ⟨-, hd⟩
    rcases hd with hd | hd
    · norm_num at hd
    · exact hd (Or.inl (by norm_num))

/-- C1 amended: the touch and pointer zoning decisions agree on every
input when no trip is highlighted; but when a trip is highlighted, at
default zoom (not above 1.1) and in the top or bottom band, the
pointer-down handler captures while the touch gatekeeper propagates, so
the two entry points diverge exactly on those events. -/
theorem zoning_agreement :
    (∀ (en : Bool) (z y h : ℝ), pointerCaptures en false z y h ↔ touchCaptures en z y h) ∧
    (∀ z y h : ℝ, ¬ z > 1.1 → isNavZone y h →
        pointerCaptures true true z y h ∧ ¬ touchCaptures true z y h) := by
  constructor
  · intro en z y h
    unfold pointerCaptures touchCaptures
    constructor
    · rintro ⟨he, hn⟩
      refine ⟨he, ?_⟩
      by_cases hz : z > 1.1
      · exact Or.inl hz
      · exact Or.inr fun hnav => hn ⟨hz, hnav, rfl⟩
    · rintro ⟨he, hd⟩
      refine ⟨he, ?_⟩
      rintro ⟨hz, hnav, -⟩
      rcases hd with hd | hd
      · exact hz hd
      · exact hd hnav
  · intro z y h hz hnav
    refine ⟨⟨rfl, ?_⟩, ?_⟩
    · rintro ⟨-, -, hb⟩
      simp at hb
    · rintro ⟨-, hd⟩
      rcases hd with hd | hd
      · exact hz hd
      · exact hd hnav

/-- C1 witness: the divergence instantiated at zoom 1, y = 100,
viewport height 1000. -/
theorem zoning_agreement_check :
    pointerCaptures true true 1 100 1000 ∧ ¬ touchCaptures true 1 100 1000 :=
  zoning_agreement.2 1 100 1000 (by norm_num) (Or.inl (by norm_num))

/-- Bumping a location never empties the record. -/
theorem locBump_ne_nil (acc : List LocEntry) (n : String) (lg lt : ℚ) :
    locBump acc n lg lt ≠ [] := by
  cases acc with
  | nil => simp [locBump]
  | cons e es =>
    unfold locBump
    split <;> simp

/-- The tally fold keeps a nonempty record nonempty. -/
theorem locTally_go_ne_nil (ts : List Trip) (acc : List LocEntry) (h : acc ≠ []) :
    ts.foldl locTallyStep acc ≠ [] := by
  induction ts generalizing acc with
  | nil => exact h
  | cons t ts ih => exact ih _ (locBump_ne_nil _ _ _ _)

/-- A nonempty trip list produces a nonempty tally. -/
theorem locTally_ne_nil (trips : List Trip) (h : trips ≠ []) : locTally trips ≠ [] := by
  cases trips with
  | nil => exact absurd rfl h
  | cons t ts =>
    unfold locTally
    rw [List.foldl_cons]
    exact locTally_go_ne_nil ts _ (locBump_ne_nil _ _ _ _)

/-- Bumping preserves that every record entry has a positive count. -/
theorem locBump_count_pos (acc : List LocEntry) (n : String) (lg lt : ℚ)
    (h : ∀ e ∈ acc, 1 ≤ e.count) : ∀ e ∈ locBump acc n lg lt, 1 ≤ e.count := by
  induction acc with
  | nil =>
    intro e he
    simp [locBump] at he
    subst he
    exact le_refl 1
  | cons x xs ih =>
    intro e he
    unfold locBump at he
    split at he
    · rcases List.mem_cons.mp he with rfl | hmem
      · simp
      · exact h e (List.mem_cons_of_mem _ hmem)
    · rcases List.mem_cons.mp he with rfl | hmem
      · exact h e (List.mem_cons_self _ _)
      · exact ih (fun a ha => h a (List.mem_cons_of_mem _ ha)) e hmem

/-- Every entry of the tally fold has a positive count. -/
theorem locTally_go_count_pos (ts : List Trip) (acc : List LocEntry)
    (h : ∀ e ∈ acc, 1 ≤ e.count) : ∀ e ∈ ts.foldl locTallyStep acc, 1 ≤ e.count := by
  induction ts generalizing acc with
  | nil => simpa using h
  | cons t ts ih =>
    rw [List.foldl_cons]
    exact ih _ (locBump_count_pos _ _ _ _ (locBump_count_pos _ _ _ _ h))

/-- Every entry of the tally has a positive count. -/
theorem locTally_count_pos (trips : List Trip) : ∀ e ∈ locTally trips, 1 ≤ e.count :=
  locTally_go_count_pos trips [] (by simp)

/-- The selection fold of lines 147-150 either keeps its initial best
(when nothing strictly beats it) or returns the first entry of maximal
count: everything before it is strictly smaller, everything after it is
at most it. -/
theorem selectTop_go (l : List LocEntry) : ∀ init : TopLoc,
    (l.foldl selStep init = init ∧ ∀ e ∈ l, (e.count : ℤ) ≤ init.count) ∨
    (∃ pre e post, l = pre ++ e :: post ∧
      l.foldl selStep init = ⟨(e.count : ℤ), e.lng, e.lat⟩ ∧
      init.count < (e.count : ℤ) ∧
      (∀ e2 ∈ pre, e2.count < e.count) ∧
      (∀ e2 ∈ post, e2.count ≤ e.count)) := by
  induction l with
  | nil =>
    intro init
    exact Or.inl ⟨rfl, by simp⟩
  | cons x xs ih =>
    intro init
    by_cases hx : (x.count : ℤ) > init.count
    · have hstep : selStep init x = ⟨(x.count : ℤ), x.lng, x.lat⟩ := by
        unfold selStep
        rw [if_pos hx]
      rcases ih ⟨(x.count : ℤ), x.lng, x.lat⟩ with ⟨hr, hall⟩ | ⟨pre, e, post, hsplit, hr, hgt, hpre, hpost⟩
      · refine Or.inr ⟨[], x, xs, by simp, ?_, hx, by simp, ?_⟩
        · rw [List.foldl_cons, hstep, hr]
        · intro e2 he2
          have h3 := hall e2 he2
          simp at h3
          exact_mod_cast h3
      · refine Or.inr ⟨x :: pre, e, post, by rw [hsplit, List.cons_append], ?_, ?_, ?_, hpost⟩
        · rw [List.foldl_cons, hstep, hr]
        · simp at hgt
          omega
        · intro e2 he2
          rcases List.mem_cons.mp he2 with rfl | hm
          · simp at hgt
            exact_mod_cast hgt
          · exact hpre e2 hm
    · have hstep : selStep init x = init := by
        unfold selStep
        rw [if_neg hx]
      push_neg at hx
      rcases ih init with ⟨hr, hall⟩ | ⟨pre, e, post, hsplit, hr, hgt, hpre, hpost⟩
      · refine Or.inl ⟨by rw [List.foldl_cons, hstep, hr], ?_⟩
        intro e2 he2
        rcases List.mem_cons.mp he2 with rfl | hm
        · exact hx
        · exact hall e2 hm
      · refine Or.inr ⟨x :: pre, e, post, by rw [hsplit, List.cons_append], ?_, hgt, ?_, hpost⟩
        · rw [List.foldl_cons, hstep, hr]
        · intro e2 he2
          rcases List.mem_cons.mp he2 with rfl | hm
          · have h1 : (e2.count : ℤ) < (e.count : ℤ) := lt_of_le_of_lt hx hgt
            exact_mod_cast h1
          · exact hpre e2 hm

/-- C4: for every nonempty trip list with no highlight, autoCenter
selects from the name-keyed tally (built over both origins and
destinations, in first-encountered order) an entry of maximal count that
strictly beats every earlier entry (ties go to the first encountered),
and centers on its coordinates at zoom exactly 1; on the A-to-B, A-to-C,
A-to-D example the tally gives A count 3 and the camera centers on A at
zoom 1. -/
theorem autoCenter_most_frequent :
    (∀ trips : List Trip, trips ≠ [] →
      ∃ pre e post, locTally trips = pre ++ e :: post ∧
        (∀ e2 ∈ pre, e2.count < e.count) ∧
        (∀ e2 ∈ post, e2.count ≤ e.count) ∧
        autoCenterTrips trips = ((-e.lng, -e.lat), 1)) ∧
    locTally tallyDemoTrips =
      [⟨"A", 3, 100, 30⟩, ⟨"B", 1, 20, 10⟩, ⟨"C", 1, 30, 11⟩, ⟨"D", 1, 40, 12⟩] ∧
    autoCenterTrips tallyDemoTrips = ((-100, -30), 1) := by
  refine ⟨?_, by decide, by decide⟩
  intro trips hne
  have hpos := locTally_count_pos trips
  have hnn := locTally_ne_nil trips hne
  rcases selectTop_go (locTally trips) ⟨-1, 0, 0⟩ with ⟨hr, hall⟩ |
    ⟨pre, e, post, hsplit, hr, hgt, hpre, hpost⟩
  · exfalso
    rcases List.exists_mem_of_ne_nil _ hnn with ⟨e, he⟩
    have h1 := hall e he
    have h2 := hpos e he
    simp at h1
    omega
  · refine ⟨pre, e, post, hsplit, hpre, hpost, ?_⟩
    have hepos : 1 ≤ e.count := by
      refine hpos e ?_
      rw [hsplit]
      exact List.mem_append_right _ (List.mem_cons_self _ _)
    unfold autoCenterTrips selectTopLoc
    rw [hr, if_pos (by simp; omega)]

/-- C4 witness: the selection property evaluated on the A-to-B, A-to-C,
A-to-D example. -/
theorem autoCenter_most_frequent_check :
    ∃ pre e post, locTally tallyDemoTrips = pre ++ e :: post ∧
      (∀ e2 ∈ pre, e2.count < e.count) ∧
      (∀ e2 ∈ post, e2.count ≤ e.count) ∧
      autoCenterTrips tallyDemoTrips = ((-e.lng, -e.lat), 1) :=
  autoCenter_most_frequent.1 tallyDemoTrips (by decide)

/-- Replacing a cached pointer event keeps the cache length. -/
theorem replacePid_length (l : List PointerEvt) (e : PointerEvt) :
    (replacePid l e).length = l.length := by
  induction l with
  | nil => rfl
  | cons c cs ih =>
    unfold replacePid
    split <;> simp [ih]

/-- Removing an absent pointer id leaves the cache unchanged. -/
theorem removeFirstPid_of_unmatched (l : List PointerEvt) (pid : ℕ)
    (h : ∀ c ∈ l, c.pid ≠ pid) : removeFirstPid l pid = l := by
  induction l with
  | nil => rfl
  | cons c cs ih =>
    unfold removeFirstPid
    rw [if_neg (h c (List.mem_cons_self _ _)), ih (fun a ha => h a (List.mem_cons_of_mem _ ha))]

/-- The initial gesture state satisfies the session invariant. -/
theorem gestureInv_init : GestureInv initGesture := by
  constructor
  · intro _
    rfl
  · intro _
    exact ⟨rfl, rfl⟩

/-- handlePointerDown preserves the session invariant. -/
theorem gestureInv_down (en hlight : Bool) (ihgt : ℝ) (s : GestureState) (e : PointerEvt)
    (h : GestureInv s) : GestureInv (handlePointerDown en hlight ihgt s e) := by
  unfold handlePointerDown
  split
  · exact h
  split
  · exact h
  split
  · refine ⟨fun hl2 => ?_, fun hnil => ?_⟩
    · dsimp only at hl2 ⊢
      simp only [List.length_append, List.length_cons, List.length_nil] at hl2
      exact h.1 (by omega)
    · dsimp only at hnil
      exact absurd (congrArg List.length hnil) (by simp)
  · refine ⟨fun hl2 => ?_, fun hnil => ?_⟩
    · dsimp only at hl2 ⊢
      simp only [List.length_append, List.length_cons, List.length_nil] at hl2
      exact h.1 (by omega)
    · dsimp only at hnil
      exact absurd (congrArg List.length hnil) (by simp)

/-- handlePointerMove preserves the session invariant. -/
theorem gestureInv_move (en : Bool) (s : GestureState) (e : PointerEvt)
    (h : GestureInv s) : GestureInv (handlePointerMove en s e) := by
  unfold handlePointerMove
  split
  · exact h
  split
  · rename_i c0 c1 heq
    refine ⟨fun hl2 => ?_, fun hnil => ?_⟩
    · dsimp only at hl2
      rw [heq] at hl2
      simp at hl2
    · dsimp only at hnil
      rw [heq] at hnil
      simp at hnil
  · split
    · rename_i lp hlp
      split
      · rename_i hcond
        refine ⟨fun hl2 => ?_, fun hnil => ?_⟩
        · dsimp only at hl2 ⊢
          rw [replacePid_length] at hl2
          exact h.1 hl2
        · dsimp only at hnil
          rw [hnil] at hcond
          simp at hcond
      · refine ⟨fun hl2 => ?_, fun hnil => ?_⟩
        · dsimp only at hl2 ⊢
          rw [replacePid_length] at hl2
          exact h.1 hl2
        · dsimp only at hnil ⊢
          have h0 : s.evCache = [] := by
            have hlen := congrArg List.length hnil
            rw [replacePid_length] at hlen
            exact List.length_eq_zero.mp hlen
          exact h.2 h0
    · refine ⟨fun hl2 => ?_, fun hnil => ?_⟩
      · dsimp only at hl2 ⊢
        rw [replacePid_length] at hl2
        exact h.1 hl2
      · dsimp only at hnil ⊢
        have h0 : s.evCache = [] := by
          have hlen := congrArg List.length hnil
          rw [replacePid_length] at hlen
          exact List.length_eq_zero.mp hlen
        exact h.2 h0

/-- handlePointerUp re-establishes the session invariant. -/
theorem gestureInv_up (en : Bool) (s : GestureState) (e : PointerEvt)
    (h : GestureInv s) : GestureInv (handlePointerUp en s e) := by
  unfold handlePointerUp
  split
  · exact h
  split
  · rename_i hzero
    refine ⟨fun _ => ?_, fun _ => ⟨rfl, rfl⟩⟩
    dsimp only
    rw [if_pos (by omega : (removeFirstPid s.evCache e.pid).length < 2)]
  · rename_i hnz
    refine ⟨fun hl2 => ?_, fun hnil => ?_⟩
    · dsimp only at hl2 ⊢
      rw [if_pos hl2]
    · dsimp only at hnil
      exact absurd (congrArg List.length hnil) (by simpa using hnz)

/-- handleWheel preserves the session invariant. -/
theorem gestureInv_wheel (en : Bool) (dy : ℝ) (s : GestureState)
    (h : GestureInv s) : GestureInv (handleWheel en dy s) := by
  unfold handleWheel
  split
  · exact h
  · exact h

/-- handleDoubleClickStep preserves the session invariant. -/
theorem gestureInv_dbl (en : Bool) (s : GestureState)
    (h : GestureInv s) : GestureInv (handleDoubleClickStep en s) := by
  unfold handleDoubleClickStep
  split
  · exact h
  · exact h

/-- setCamera preserves the session invariant. -/
theorem gestureInv_setCamera (s : GestureState) (rot : ℝ × ℝ) (z : ℝ)
    (h : GestureInv s) : GestureInv (setCamera s rot z) := h

/-- Every reachable gesture-session state satisfies the invariant. -/
theorem reachable_inv {s : GestureState} (h : Reachable s) : GestureInv s := by
  induction h with
  | init => exact gestureInv_init
  | down en hlight ihgt e _ ihp => exact gestureInv_down en hlight ihgt _ e ihp
  | move en e _ ihp => exact gestureInv_move en _ e ihp
  | up en e _ ihp => exact gestureInv_up en _ e ihp
  | wheel en dy _ ihp => exact gestureInv_wheel en dy _ ihp
  | dbl en _ ihp => exact gestureInv_dbl en _ ihp
  | recenter rot z _ ihp => exact gestureInv_setCamera _ rot z ihp

/-- C9: in every state a gesture session can actually reach, a
pointer-up whose pointer id matches no recorded active pointer leaves
the whole observable state (camera, pointer cache, pinch baseline, drag
flag, last position) unchanged, and releasing pointer capture for a
pointer the element never captured changes nothing and raises no error
(the release is guarded and total). -/
theorem pointerUp_unmatched_noop :
    (∀ s : GestureState, Reachable s → ∀ e : PointerEvt,
        (∀ c ∈ s.evCache, c.pid ≠ e.pid) → ∀ en : Bool, handlePointerUp en s e = s) ∧
    (∀ (captured : List ℕ) (pid : ℕ), pid ∉ captured →
        releasePointerCaptureGuarded captured pid = captured) := by
  constructor
  · intro s hs e hm en
    have hinv := reachable_inv hs
    unfold handlePointerUp
    split
    · rfl
    rw [removeFirstPid_of_unmatched s.evCache e.pid hm]
    split
    · rename_i hzero
      have h0 : s.evCache = [] := List.length_eq_zero.mp hzero
      have h2 := hinv.2 h0
      have h1 := hinv.1 (by omega)
      rw [if_pos (by omega : s.evCache.length < 2), ← h1, ← h2.1, ← h2.2]
    · rename_i hnz
      by_cases hl2 : s.evCache.length < 2
      · rw [if_pos hl2, ← hinv.1 hl2]
      · rw [if_neg hl2]
  · intro captured pid h
    unfold releasePointerCaptureGuarded
    rw [if_neg h]

/-- C9 witness: an unmatched pointer-up on the initial state, and a
guarded release on an element that captured nothing. -/
theorem pointerUp_unmatched_noop_check :
    handlePointerUp true initGesture ⟨5, 0, 0⟩ = initGesture ∧
    releasePointerCaptureGuarded [] 5 = [] :=
  ⟨pointerUp_unmatched_noop.1 initGesture Reachable.init ⟨5, 0, 0⟩ (by simp [initGesture]) true,
   pointerUp_unmatched_noop.2 [] 5 (by simp)⟩

/-- Degree-to-radian conversions of the concrete angles used below. -/
theorem rad_zero : rad 0 = 0 := by
  simp [rad]

theorem rad_ninety : rad 90 = Real.pi / 2 := by
  unfold rad
  ring

theorem rad_oneeighty : rad 180 = Real.pi := by
  unfold rad
  ring

theorem haversin_zero : haversin 0 = 0 := by
  simp [haversin]

theorem haversin_neg (x : ℝ) : haversin (-x) = haversin x := by
  unfold haversin
  rw [neg_div, Real.sin_neg]
  ring

theorem haversin_pi_div_two : haversin (Real.pi / 2) = 1 / 2 := by
  unfold haversin
  rw [show Real.pi / 2 / 2 = Real.pi / 4 by ring, Real.sin_pi_div_four, div_pow,
    Real.sq_sqrt (by norm_num : (0 : ℝ) ≤ 2)]
  norm_num

theorem haversin_pi : haversin Real.pi = 1 := by
  unfold haversin
  rw [Real.sin_pi_div_two]
  norm_num

theorem sqrt_half : Real.sqrt (1 / 2) = Real.sqrt 2 / 2 := by
  rw [show (1 / 2 : ℝ) = (Real.sqrt 2 / 2) ^ 2 by
      rw [div_pow, Real.sq_sqrt (by norm_num : (0 : ℝ) ≤ 2)]; norm_num]
  exact Real.sqrt_sq (by positivity)

theorem arcsin_sqrt_two_div_two : Real.arcsin (Real.sqrt 2 / 2) = Real.pi / 4 := by
  rw [← Real.sin_pi_div_four]
  exact Real.arcsin_sin (by linarith [Real.pi_pos]) (by linarith [Real.pi_pos])

theorem inv_sqrt_two : (Real.sqrt 2)⁻¹ = Real.sqrt 2 / 2 := by
  have h : Real.sqrt 2 ≠ 0 := by positivity
  field_simp

/-- The radian-level distance from (0, 0) to (0, pi/2) is pi/2. -/
theorem geoDistanceRad_origin_pole : geoDistanceRad (0, 0) (0, Real.pi / 2) = Real.pi / 2 := by
  unfold geoDistanceRad
  norm_num [haversin_pi_div_two, haversin_zero, Real.cos_pi_div_two]
  rw [inv_sqrt_two, arcsin_sqrt_two_div_two]
  ring

/-- The distance used by the C2 example: (0,0) to (0,90) spans pi/2. -/
theorem geoDistance_equator_pole : geoDistance (0, 0) (0, 90) = Real.pi / 2 := by
  unfold geoDistance
  simp only [rad_zero, rad_ninety]
  exact geoDistanceRad_origin_pole

/-- The same distance with the arguments swapped, as the marker filter
measures from the destination to the view center. -/
theorem geoDistance_pole_equator : geoDistance (0, 90) (0, 0) = Real.pi / 2 := by
  unfold geoDistance geoDistanceRad
  simp only [rad_zero, rad_ninety]
  norm_num [haversin_zero, Real.cos_pi_div_two, show (0 : ℝ) - Real.pi / 2 = -(Real.pi / 2) by ring,
    haversin_neg, haversin_pi_div_two]
  rw [inv_sqrt_two, arcsin_sqrt_two_div_two]
  ring

theorem atan2_zero_pos (x : ℝ) (hx : 0 < x) : atan2 0 x = 0 := by
  unfold atan2
  rw [if_pos hx]
  simp

theorem atan2_self_pos (a : ℝ) (ha : 0 < a) : atan2 a a = Real.pi / 4 := by
  unfold atan2
  rw [if_pos ha, div_self (ne_of_gt ha), Real.arctan_one]

theorem deg_zero : deg 0 = 0 := by
  simp [deg]

theorem deg_pi_div_four : deg (Real.pi / 4) = 45 := by
  unfold deg
  have h := Real.pi_ne_zero
  field_simp
  ring

theorem sqrt_two_div_two_sq : (Real.sqrt 2 / 2) * (Real.sqrt 2 / 2) = 1 / 2 := by
  rw [div_mul_div_comm, Real.mul_self_sqrt (by norm_num)]
  norm_num

/-- The great-circle midpoint of (0,0) and (0,90) is (0,45), through the
d3.geoInterpolate formula at t = 0.5. -/
theorem geoInterpolateMid_equator_pole : geoInterpolateMid (0, 0) (0, 90) = (0, 45) := by
  unfold geoInterpolateMid
  simp only [rad_zero, rad_ninety]
  rw [geoDistanceRad_origin_pole]
  rw [if_neg (ne_of_gt (by positivity : (0 : ℝ) < Real.pi / 2))]
  norm_num [Real.sin_pi_div_two, Real.cos_pi_div_two,
    show (1 / 2 : ℝ) * (Real.pi / 2) = Real.pi / 4 by ring,
    show Real.pi / 2 - Real.pi / 4 = Real.pi / 4 by ring,
    Real.sin_pi_div_four, sqrt_two_div_two_sq, sqrt_half]
  rw [inv_sqrt_two, atan2_self_pos _ (by positivity), atan2_zero_pos _ (by positivity),
    deg_zero, deg_pi_div_four]
  exact ⟨rfl, rfl⟩

/-- A destination at the exact antipode of the view center is at
distance pi. -/
theorem geoDistance_antipode : geoDistance (180, 0) (0, 0) = Real.pi := by
  unfold geoDistance geoDistanceRad
  simp only [rad_zero, rad_oneeighty]
  norm_num [haversin_zero, show (0 : ℝ) - Real.pi = -Real.pi by ring, haversin_neg, haversin_pi]
  ring

/-- The auto-framing divisor for the C2 example: pi/2 times the
interactive padding 1.5, which dominates the 0.001 floor. -/
theorem autoFrameSpan_equator_pole :
    autoFrameSpan (0, 0) (0, 90) true = 3 * Real.pi / 4 := by
  unfold autoFrameSpan
  rw [geoDistance_equator_pole, if_pos rfl]
  rw [max_eq_left (by nlinarith [Real.pi_gt_three])]
  ring

/-- C2: for every highlighted trip the auto-framing camera equals the
specification formula (rotation target is the great-circle midpoint,
zoom is pi over the padded span clamped to [1, 4000], padding 1.5
interactive and 1.8 otherwise); and for origin (0,0), destination (0,90)
in an interactive view the centered point is exactly the midpoint
(0,45) — the stored rotation is its negation — with zoom 4/3, which is
strictly greater than 1. -/
theorem autoCenter_highlight_correct :
    (∀ (o d : ℝ × ℝ) (i : Bool), autoCenterHighlight o d i = specAutoFrameCamera o d i) ∧
    autoCenterHighlight (0, 0) (0, 90) true = ((0, -45), 4 / 3) ∧
    1 < (autoCenterHighlight (0, 0) (0, 90) true).2 := by
  have h2 : autoCenterHighlight (0, 0) (0, 90) true = ((0, -45), 4 / 3) := by
    unfold autoCenterHighlight
    rw [geoInterpolateMid_equator_pole, autoFrameSpan_equator_pole]
    have hpi := Real.pi_ne_zero
    rw [show Real.pi / (3 * Real.pi / 4) = 4 / 3 by field_simp; ring]
    rw [max_eq_left (by norm_num), min_eq_left (by norm_num)]
    norm_num
  exact ⟨fun o d i => rfl, h2, by rw [h2]; norm_num⟩

/-- C6: in the no-highlight routes and visited modes, a destination
marker is emitted exactly when the great-circle distance from that
destination to the current view center is strictly below pi/2; a
destination at distance exactly pi/2 is never emitted and a destination
at the exact antipode (distance pi) is never emitted. -/
theorem markers_visible_hemisphere (dests : List (ℝ × ℝ)) (center p : ℝ × ℝ) :
    (p ∈ renderPointsDests dests center ↔
      p ∈ dests ∧ geoDistance p center < Real.pi / 2) ∧
    (geoDistance p center = Real.pi / 2 → p ∉ renderPointsDests dests center) ∧
    (geoDistance p center = Real.pi → p ∉ renderPointsDests dests center) := by
  have hmem : p ∈ renderPointsDests dests center ↔
      p ∈ dests ∧ geoDistance p center < Real.pi / 2 := by
    unfold renderPointsDests
    rw [List.mem_filter]
    simp
  refine ⟨hmem, ?_, ?_⟩
  · intro heq hm
    have hlt := (hmem.mp hm).2
    rw [heq] at hlt
    exact lt_irrefl _ hlt
  · intro heq hm
    have hlt := (hmem.mp hm).2
    rw [heq] at hlt
    have hpi := Real.pi_pos
    linarith

/-- C6 witness: a destination at exactly pi/2 from the view center and a
destination at the exact antipode, neither of which is emitted. -/
theorem markers_visible_hemisphere_check :
    ((0 : ℝ), (90 : ℝ)) ∉ renderPointsDests [((0 : ℝ), (90 : ℝ))] (0, 0) ∧
    ((180 : ℝ), (0 : ℝ)) ∉ renderPointsDests [((180 : ℝ), (0 : ℝ))] (0, 0) :=
  ⟨(markers_visible_hemisphere [((0 : ℝ), (90 : ℝ))] (0, 0) (0, 90)).2.1
      geoDistance_pole_equator,
   (markers_visible_hemisphere [((180 : ℝ), (0 : ℝ))] (0, 0) (180, 0)).2.2
      geoDistance_antipode⟩

end WorldMap
